import Mathlib

/-
Verification of the JNI binding layer in src/src/edu/mines/jves/opengl/Gl.cpp.

The file is a flat list of exported entry points.  Each entry point marshals
its arguments, performs exactly one call into the native OpenGL library
(either a link-time function for `JNI_GL_DECLARE0/1` entry points, or a
function pointer obtained from the leading `jlong pfunc` argument for
`JNI_GL_DECLARE2` entry points), maps the native return value to the JNI
representation, and wraps the body in the `JNI_TRY`/`JNI_CATCH` fault
barrier.

The native library itself is external to the repository, so it is embedded
abstractly: a record of state transformers over an arbitrary state type `S`,
each of which may also fault.  The bindings are transliterated from the C
bodies on top of that record.  Every binding additionally records the single
native invocation it performs (name and positional argument values after
marshaling) as an event, so that call counts and argument forwarding are
observable in theorems.
-/

namespace Jtk

/-- JNI 32-bit signed integer (`jint`), also used for `jshort`/`jbyte`
scalars where the C code declares them; values carried as `Int`. -/
abbrev JInt := Int

/-- JNI 64-bit signed integer (`jlong`), used for extension function
addresses. -/
abbrev JLong := Int

/-- JNI signed byte (`jbyte`), range -128..127; carried as `Int`. -/
abbrev JByte := Int

/-- JNI `jfloat`, an opaque 32-bit value.  The binding layer never computes
with floats, it only forwards them, so the payload is the raw bit pattern. -/
structure JFloat where
  bits : Nat
deriving Repr, DecidableEq

/-- JNI `jdouble`, an opaque 64-bit value, forwarded only. -/
structure JDouble where
  bits : Nat
deriving Repr, DecidableEq

/-- Native `GLboolean` (an unsigned char value 0..255). -/
abbrev GLboolean := Nat

/-- Native sentinel `GL_TRUE`. -/
def GL_TRUE : GLboolean := 1

/-- Native sentinel `GL_FALSE`. -/
def GL_FALSE : GLboolean := 0

/-- A fault raised at the native level during a call (e.g. an access
violation), carrying its description. -/
structure NativeFault where
  description : String
deriving Repr, DecidableEq

/-- A caller-visible (Java-level) fault.  `JNI_CATCH` re-signals every
native fault as a single generic runtime exception. -/
inductive JavaFault
  | runtimeException (message : String)
deriving Repr, DecidableEq

/-- A managed string produced for the caller; a fresh caller-owned copy of
the native characters. -/
structure JavaString where
  chars : String
deriving Repr, DecidableEq

/-- Modelled from the spec: the marshaling helpers of `jniglue.h` (not under
src/) map each managed array to a raw view at the correct native width, and
for unsigned native element types they perform a bit-preserving
signed-to-unsigned reinterpretation.  `reinterpretUnsigned w x` is the
unsigned `w`-bit value with the same bit pattern as the signed value `x`. -/
def reinterpretUnsigned (w : Nat) (x : Int) : Nat :=
  (x % (2 : Int) ^ w).toNat

/-- Modelled from the spec: `JuintArray` of `jniglue.h` (not under src/),
the `GLuint*` view of a managed `int[]`. -/
def JuintArray (a : List Int) : List Nat :=
  a.map (reinterpretUnsigned 32)

/-- Modelled from the spec: `JushortArray` of `jniglue.h` (not under src/),
the `GLushort*` view of a managed `short[]`. -/
def JushortArray (a : List Int) : List Nat :=
  a.map (reinterpretUnsigned 16)

/-- Modelled from the spec: `JubyteArray` of `jniglue.h` (not under src/),
the `GLubyte*` view of a managed `byte[]`. -/
def JubyteArray (a : List Int) : List Nat :=
  a.map (reinterpretUnsigned 8)

/-- Modelled from the spec: `JvoidArray` of `jniglue.h` (not under src/),
the untyped `void*` view of a managed array; the raw elements pass through
unchanged. -/
def JvoidArray (a : List Int) : List Int := a

/-- Modelled from the spec: `JfloatArray` of `jniglue.h` (not under src/),
the `GLfloat*` view of a managed `float[]`; same width, identity view. -/
def JfloatArray (a : List JFloat) : List JFloat := a

/-- Modelled from the spec: `JdoubleArray` of `jniglue.h` (not under src/),
the `GLdouble*` view of a managed `double[]`; same width, identity view. -/
def JdoubleArray (a : List JDouble) : List JDouble := a

/-- The C implicit conversion from `jbyte` (signed char) to `GLboolean`
(unsigned char): reduction modulo 256.  Entry points such as `glColorMask`
declare `jbyte` parameters and pass them to native `GLboolean` parameters
with no other transformation. -/
def byteToGLboolean (b : JByte) : GLboolean :=
  reinterpretUnsigned 8 b

/-- The native library's interpretation of a `GLboolean` input value: any
nonzero value behaves as true, zero as false (modelled from the native
API's boolean convention; the library is external to the repository). -/
def glTruth (b : GLboolean) : Bool :=
  b != 0

/-- A positional argument value as delivered to a native function, after
marshaling. -/
inductive GLArg
  | int (x : JInt)
  | float (x : JFloat)
  | double (x : JDouble)
  | glbool (x : GLboolean)
  | uintPtr (view : List Nat)
  | ushortPtr (view : List Nat)
  | ubytePtr (view : List Nat)
  | voidPtr (view : List Int)
  | floatPtr (view : List JFloat)
deriving Repr, DecidableEq

/-- One native invocation performed by a binding: either a call to a
link-time native function (by name, with positional arguments) or a call
through an extension function pointer obtained from a `jlong` handle. -/
inductive NativeEvent
  | call (fname : String) (args : List GLArg)
  | extCall (pfunc : JLong) (args : List GLArg)
deriving Repr, DecidableEq

/-- Behaviour of the code located at one extension function address when
invoked under each of the signatures the bindings cast it to.  `toPointer`
plus the `PFNGL...PROC` cast of the C code is modelled as selecting the
matching field. -/
structure ExtSigs (S : Type) where
  blendColor : JFloat → JFloat → JFloat → JFloat → S → S × Except NativeFault Unit
  blendEquation : JInt → S → S × Except NativeFault Unit
  drawRangeElements : JInt → JInt → JInt → JInt → JInt → List Int → S → S × Except NativeFault Unit

/-- Abstract semantics of the native OpenGL library over a native state
type `S`: one field per native function used by the embedded entry points.
Each native call returns the new native state and either a value or a
native-level fault.  Writes the native code performs through borrowed
array views are part of the abstract state transformation. -/
structure NativeGL (S : Type) where
  glAccum : JInt → JFloat → S → S × Except NativeFault Unit
  glClear : JInt → S → S × Except NativeFault Unit
  glClearColor : JFloat → JFloat → JFloat → JFloat → S → S × Except NativeFault Unit
  glFrustum : JDouble → JDouble → JDouble → JDouble → JDouble → JDouble → S → S × Except NativeFault Unit
  glBitmap : JInt → JInt → JFloat → JFloat → JFloat → JFloat → List Nat → S → S × Except NativeFault Unit
  glLoadIdentity : S → S × Except NativeFault Unit
  glColorMask : GLboolean → GLboolean → GLboolean → GLboolean → S → S × Except NativeFault Unit
  glDepthMask : GLboolean → S → S × Except NativeFault Unit
  glEdgeFlag : GLboolean → S → S × Except NativeFault Unit
  glIsEnabled : JInt → S → S × Except NativeFault GLboolean
  glIsList : JInt → S → S × Except NativeFault GLboolean
  glIsTexture : JInt → S → S × Except NativeFault GLboolean
  glAreTexturesResident : JInt → List Nat → List Nat → S → S × Except NativeFault GLboolean
  glGenLists : JInt → S → S × Except NativeFault JInt
  glGetError : S → S × Except NativeFault JInt
  glRenderMode : JInt → S → S × Except NativeFault JInt
  glGetString : JInt → S → S × Except NativeFault (Option String)
  glGenTextures : JInt → List Nat → S → S × Except NativeFault Unit
  glDeleteTextures : JInt → List Nat → S → S × Except NativeFault Unit
  glPrioritizeTextures : JInt → List Nat → List JFloat → S → S × Except NativeFault Unit
  glPixelMapusv : JInt → JInt → List Nat → S → S × Except NativeFault Unit
  glDrawPixels : JInt → JInt → JInt → JInt → List Int → S → S × Except NativeFault Unit
  glReadPixels : JInt → JInt → JInt → JInt → JInt → JInt → List Int → S → S × Except NativeFault Unit
  funcAt : JLong → ExtSigs S

/-- Modelled from the spec: the `JNI_TRY`/`JNI_CATCH` fault barrier of
`jniglue.h` (not under src/).  A native-level fault raised during the call
is caught at the boundary and re-signaled as a caller-level runtime fault
carrying the native fault's description; a normal result passes through. -/
def jniCatch {α : Type} : Except NativeFault α → Except JavaFault α
  | .ok a => .ok a
  | .error f => .error (.runtimeException f.description)

/-- Modelled from JNI (external to the repository): `NewStringUTF` copies a
native character string into a new caller-owned managed string; applied to
a null pointer it produces no string. -/
def newStringUTF : Option String → Option JavaString
  | some cs => some ⟨cs⟩
  | none => none

/-- Result of running one binding entry point: the list of native
invocations it performed, the final native state, and the value returned
to the caller or the caller-visible fault. -/
structure Outcome (S α : Type) where
  trace : List NativeEvent
  state : S
  ret : Except JavaFault α

/-- Map the returned value of an outcome (used to inject typed returns into
the uniform return type). -/
def Outcome.mapRet {S α β : Type} (o : Outcome S α) (f : α → β) : Outcome S β :=
  ⟨o.trace, o.state, o.ret.map f⟩

/-- Binding `Java_edu_mines_jves_opengl_Gl_glAccum` (Gl.cpp 43-47):
`glAccum(op,value);` inside the fault barrier. -/
def Gl_glAccum {S : Type} (gl : NativeGL S) (op : JInt) (value : JFloat) (s : S) :
    Outcome S Unit :=
  let r := gl.glAccum op value s
  ⟨[.call "glAccum" [.int op, .float value]], r.1, jniCatch r.2⟩

/-- Binding `Java_edu_mines_jves_opengl_Gl_glClear` (Gl.cpp 138-142):
`glClear(mask);`. -/
def Gl_glClear {S : Type} (gl : NativeGL S) (mask : JInt) (s : S) : Outcome S Unit :=
  let r := gl.glClear mask s
  ⟨[.call "glClear" [.int mask]], r.1, jniCatch r.2⟩

/-- Binding `Java_edu_mines_jves_opengl_Gl_glClearColor` (Gl.cpp 150-154):
`glClearColor(red,green,blue,alpha);`. -/
def Gl_glClearColor {S : Type} (gl : NativeGL S) (red green blue alpha : JFloat) (s : S) :
    Outcome S Unit :=
  let r := gl.glClearColor red green blue alpha s
  ⟨[.call "glClearColor" [.float red, .float green, .float blue, .float alpha]],
   r.1, jniCatch r.2⟩

/-- Binding `Java_edu_mines_jves_opengl_Gl_glFrustum` (Gl.cpp 633-639):
`glFrustum(left,right,bottom,top,zNear,zFar);`. -/
def Gl_glFrustum {S : Type} (gl : NativeGL S)
    (left right bottom top zNear zFar : JDouble) (s : S) : Outcome S Unit :=
  let r := gl.glFrustum left right bottom top zNear zFar s
  ⟨[.call "glFrustum" [.double left, .double right, .double bottom, .double top,
      .double zNear, .double zFar]], r.1, jniCatch r.2⟩

/-- Binding `Java_edu_mines_jves_opengl_Gl_glBitmap` (Gl.cpp 83-89):
`JubyteArray bitmap(env,jbitmap); glBitmap(width,height,xorig,yorig,xmove,ymove,bitmap);`. -/
def Gl_glBitmap {S : Type} (gl : NativeGL S) (width height : JInt)
    (xorig yorig xmove ymove : JFloat) (jbitmap : List Int) (s : S) : Outcome S Unit :=
  let bitmap := JubyteArray jbitmap
  let r := gl.glBitmap width height xorig yorig xmove ymove bitmap s
  ⟨[.call "glBitmap" [.int width, .int height, .float xorig, .float yorig,
      .float xmove, .float ymove, .ubytePtr bitmap]], r.1, jniCatch r.2⟩

/-- Binding `Java_edu_mines_jves_opengl_Gl_glLoadIdentity` (Gl.cpp 1045-1048):
`glLoadIdentity();`. -/
def Gl_glLoadIdentity {S : Type} (gl : NativeGL S) (s : S) : Outcome S Unit :=
  let r := gl.glLoadIdentity s
  ⟨[.call "glLoadIdentity" []], r.1, jniCatch r.2⟩

/-- Binding `Java_edu_mines_jves_opengl_Gl_glColorMask` (Gl.cpp 311-315):
`glColorMask(red,green,blue,alpha);` with `jbyte` parameters implicitly
converted to `GLboolean`. -/
def Gl_glColorMask {S : Type} (gl : NativeGL S) (red green blue alpha : JByte) (s : S) :
    Outcome S Unit :=
  let r := gl.glColorMask (byteToGLboolean red) (byteToGLboolean green)
    (byteToGLboolean blue) (byteToGLboolean alpha) s
  ⟨[.call "glColorMask" [.glbool (byteToGLboolean red), .glbool (byteToGLboolean green),
      .glbool (byteToGLboolean blue), .glbool (byteToGLboolean alpha)]],
   r.1, jniCatch r.2⟩

/-- Binding `Java_edu_mines_jves_opengl_Gl_glDepthMask` (Gl.cpp 388-392):
`glDepthMask(flag);` with a `jbyte` parameter implicitly converted to
`GLboolean`. -/
def Gl_glDepthMask {S : Type} (gl : NativeGL S) (flag : JByte) (s : S) : Outcome S Unit :=
  let r := gl.glDepthMask (byteToGLboolean flag) s
  ⟨[.call "glDepthMask" [.glbool (byteToGLboolean flag)]], r.1, jniCatch r.2⟩

/-- Binding `Java_edu_mines_jves_opengl_Gl_glEdgeFlag` (Gl.cpp 466-470):
`glEdgeFlag(flag);` with a `jbyte` parameter implicitly converted to
`GLboolean`. -/
def Gl_glEdgeFlag {S : Type} (gl : NativeGL S) (flag : JByte) (s : S) : Outcome S Unit :=
  let r := gl.glEdgeFlag (byteToGLboolean flag) s
  ⟨[.call "glEdgeFlag" [.glbool (byteToGLboolean flag)]], r.1, jniCatch r.2⟩

/-- Binding `Java_edu_mines_jves_opengl_Gl_glIsEnabled` (Gl.cpp 957-961):
`return (glIsEnabled(cap)==GL_TRUE)?JNI_TRUE:JNI_FALSE;`. -/
def Gl_glIsEnabled {S : Type} (gl : NativeGL S) (cap : JInt) (s : S) : Outcome S Bool :=
  let r := gl.glIsEnabled cap s
  ⟨[.call "glIsEnabled" [.int cap]], r.1, jniCatch (r.2.map (fun b => b == GL_TRUE))⟩

/-- Binding `Java_edu_mines_jves_opengl_Gl_glIsList` (Gl.cpp 963-967):
`return (glIsList(list)==GL_TRUE)?JNI_TRUE:JNI_FALSE;`. -/
def Gl_glIsList {S : Type} (gl : NativeGL S) (list : JInt) (s : S) : Outcome S Bool :=
  let r := gl.glIsList list s
  ⟨[.call "glIsList" [.int list]], r.1, jniCatch (r.2.map (fun b => b == GL_TRUE))⟩

/-- Binding `Java_edu_mines_jves_opengl_Gl_glIsTexture` (Gl.cpp 969-973):
`return (glIsTexture(texture)==GL_TRUE)?JNI_TRUE:JNI_FALSE;`. -/
def Gl_glIsTexture {S : Type} (gl : NativeGL S) (texture : JInt) (s : S) : Outcome S Bool :=
  let r := gl.glIsTexture texture s
  ⟨[.call "glIsTexture" [.int texture]], r.1, jniCatch (r.2.map (fun b => b == GL_TRUE))⟩

/-- Binding `Java_edu_mines_jves_opengl_Gl_glAreTexturesResident` (Gl.cpp 55-63):
marshals `JuintArray textures` and `JubyteArray residences`, then
`return (glAreTexturesResident(n,textures,residences)==GL_TRUE)?JNI_TRUE:JNI_FALSE;`. -/
def Gl_glAreTexturesResident {S : Type} (gl : NativeGL S) (n : JInt)
    (jtextures jresidences : List Int) (s : S) : Outcome S Bool :=
  let textures := JuintArray jtextures
  let residences := JubyteArray jresidences
  let r := gl.glAreTexturesResident n textures residences s
  ⟨[.call "glAreTexturesResident" [.int n, .uintPtr textures, .ubytePtr residences]],
   r.1, jniCatch (r.2.map (fun b => b == GL_TRUE))⟩

/-- Binding `Java_edu_mines_jves_opengl_Gl_glGenLists` (Gl.cpp 641-645):
`return glGenLists(range);`. -/
def Gl_glGenLists {S : Type} (gl : NativeGL S) (range : JInt) (s : S) : Outcome S JInt :=
  let r := gl.glGenLists range s
  ⟨[.call "glGenLists" [.int range]], r.1, jniCatch r.2⟩

/-- Binding `Java_edu_mines_jves_opengl_Gl_glGetError` (Gl.cpp 674-677):
`return glGetError();`. -/
def Gl_glGetError {S : Type} (gl : NativeGL S) (s : S) : Outcome S JInt :=
  let r := gl.glGetError s
  ⟨[.call "glGetError" []], r.1, jniCatch r.2⟩

/-- Binding `Java_edu_mines_jves_opengl_Gl_glRenderMode` (Gl.cpp 1647-1651):
`return glRenderMode(mode);`. -/
def Gl_glRenderMode {S : Type} (gl : NativeGL S) (mode : JInt) (s : S) : Outcome S JInt :=
  let r := gl.glRenderMode mode s
  ⟨[.call "glRenderMode" [.int mode]], r.1, jniCatch r.2⟩

/-- Binding `Java_edu_mines_jves_opengl_Gl_glGetString` (Gl.cpp 771-775):
`return env->NewStringUTF((const char*)glGetString(name));` — the native
pointer is passed to `NewStringUTF` with no null check. -/
def Gl_glGetString {S : Type} (gl : NativeGL S) (name : JInt) (s : S) :
    Outcome S (Option JavaString) :=
  let r := gl.glGetString name s
  ⟨[.call "glGetString" [.int name]], r.1, jniCatch (r.2.map newStringUTF)⟩

/-- Binding `Java_edu_mines_jves_opengl_Gl_glGenTextures` (Gl.cpp 647-652):
`JuintArray textures(env,jtextures); glGenTextures(n,textures);`. -/
def Gl_glGenTextures {S : Type} (gl : NativeGL S) (n : JInt) (jtextures : List Int)
    (s : S) : Outcome S Unit :=
  let textures := JuintArray jtextures
  let r := gl.glGenTextures n textures s
  ⟨[.call "glGenTextures" [.int n, .uintPtr textures]], r.1, jniCatch r.2⟩

/-- Binding `Java_edu_mines_jves_opengl_Gl_glDeleteTextures` (Gl.cpp 375-380):
`JuintArray textures(env,jtextures); glDeleteTextures(n,textures);`. -/
def Gl_glDeleteTextures {S : Type} (gl : NativeGL S) (n : JInt) (jtextures : List Int)
    (s : S) : Outcome S Unit :=
  let textures := JuintArray jtextures
  let r := gl.glDeleteTextures n textures s
  ⟨[.call "glDeleteTextures" [.int n, .uintPtr textures]], r.1, jniCatch r.2⟩

/-- Binding `Java_edu_mines_jves_opengl_Gl_glPrioritizeTextures` (Gl.cpp 1374-1380):
`JuintArray textures(env,jtextures); JfloatArray priorities(env,jpriorities);
glPrioritizeTextures(n,textures,priorities);`. -/
def Gl_glPrioritizeTextures {S : Type} (gl : NativeGL S) (n : JInt)
    (jtextures : List Int) (jpriorities : List JFloat) (s : S) : Outcome S Unit :=
  let textures := JuintArray jtextures
  let priorities := JfloatArray jpriorities
  let r := gl.glPrioritizeTextures n textures priorities s
  ⟨[.call "glPrioritizeTextures" [.int n, .uintPtr textures, .floatPtr priorities]],
   r.1, jniCatch r.2⟩

/-- Binding `Java_edu_mines_jves_opengl_Gl_glPixelMapusv` (Gl.cpp 1292-1297):
`JushortArray values(env,jvalues); glPixelMapusv(map,mapsize,values);`. -/
def Gl_glPixelMapusv {S : Type} (gl : NativeGL S) (map mapsize : JInt)
    (jvalues : List Int) (s : S) : Outcome S Unit :=
  let values := JushortArray jvalues
  let r := gl.glPixelMapusv map mapsize values s
  ⟨[.call "glPixelMapusv" [.int map, .int mapsize, .ushortPtr values]],
   r.1, jniCatch r.2⟩

/-- Binding `Java_edu_mines_jves_opengl_Gl_glDrawPixels__IIII_3B` (Gl.cpp 445-450):
`JvoidArray pixels(env,jpixels); glDrawPixels(width,height,format,type,pixels);`
for a managed `byte[]` pixel array. -/
def Gl_glDrawPixels__IIII_3B {S : Type} (gl : NativeGL S)
    (width height format type : JInt) (jpixels : List Int) (s : S) : Outcome S Unit :=
  let pixels := JvoidArray jpixels
  let r := gl.glDrawPixels width height format type pixels s
  ⟨[.call "glDrawPixels" [.int width, .int height, .int format, .int type,
      .voidPtr pixels]], r.1, jniCatch r.2⟩

/-- Binding `Java_edu_mines_jves_opengl_Gl_glDrawPixels__IIII_3I` (Gl.cpp 452-457):
same body as the `byte[]` overload, for a managed `int[]` pixel array. -/
def Gl_glDrawPixels__IIII_3I {S : Type} (gl : NativeGL S)
    (width height format type : JInt) (jpixels : List Int) (s : S) : Outcome S Unit :=
  let pixels := JvoidArray jpixels
  let r := gl.glDrawPixels width height format type pixels s
  ⟨[.call "glDrawPixels" [.int width, .int height, .int format, .int type,
      .voidPtr pixels]], r.1, jniCatch r.2⟩

/-- Binding `Java_edu_mines_jves_opengl_Gl_glDrawPixels__IIII_3S` (Gl.cpp 459-464):
same body as the `byte[]` overload, for a managed `short[]` pixel array. -/
def Gl_glDrawPixels__IIII_3S {S : Type} (gl : NativeGL S)
    (width height format type : JInt) (jpixels : List Int) (s : S) : Outcome S Unit :=
  let pixels := JvoidArray jpixels
  let r := gl.glDrawPixels width height format type pixels s
  ⟨[.call "glDrawPixels" [.int width, .int height, .int format, .int type,
      .voidPtr pixels]], r.1, jniCatch r.2⟩

/-- Binding `Java_edu_mines_jves_opengl_Gl_glReadPixels__IIIIII_3B` (Gl.cpp 1567-1573):
`JvoidArray pixels(env,jpixels); glReadPixels(x,y,width,height,format,type,pixels);`
for a managed `byte[]` pixel array. -/
def Gl_glReadPixels__IIIIII_3B {S : Type} (gl : NativeGL S)
    (x y width height format type : JInt) (jpixels : List Int) (s : S) : Outcome S Unit :=
  let pixels := JvoidArray jpixels
  let r := gl.glReadPixels x y width height format type pixels s
  ⟨[.call "glReadPixels" [.int x, .int y, .int width, .int height, .int format,
      .int type, .voidPtr pixels]], r.1, jniCatch r.2⟩

/-- Binding `Java_edu_mines_jves_opengl_Gl_glReadPixels__IIIIII_3I` (Gl.cpp 1575-1581):
same body as the `byte[]` overload, for a managed `int[]` pixel array. -/
def Gl_glReadPixels__IIIIII_3I {S : Type} (gl : NativeGL S)
    (x y width height format type : JInt) (jpixels : List Int) (s : S) : Outcome S Unit :=
  let pixels := JvoidArray jpixels
  let r := gl.glReadPixels x y width height format type pixels s
  ⟨[.call "glReadPixels" [.int x, .int y, .int width, .int height, .int format,
      .int type, .voidPtr pixels]], r.1, jniCatch r.2⟩

/-- Binding `Java_edu_mines_jves_opengl_Gl_glReadPixels__IIIIII_3S` (Gl.cpp 1583-1589):
same body as the `byte[]` overload, for a managed `short[]` pixel array. -/
def Gl_glReadPixels__IIIIII_3S {S : Type} (gl : NativeGL S)
    (x y width height format type : JInt) (jpixels : List Int) (s : S) : Outcome S Unit :=
  let pixels := JvoidArray jpixels
  let r := gl.glReadPixels x y width height format type pixels s
  ⟨[.call "glReadPixels" [.int x, .int y, .int width, .int height, .int format,
      .int type, .voidPtr pixels]], r.1, jniCatch r.2⟩

/-- Binding `Java_edu_mines_jves_opengl_Gl_nglBlendColor` (Gl.cpp 2312-2317):
`(*(PFNGLBLENDCOLORPROC)toPointer(pfunc))(red,green,blue,alpha);` — the
resolved extension address is the first parameter, reinterpreted as a
function pointer of the expected signature and invoked. -/
def Gl_nglBlendColor {S : Type} (gl : NativeGL S) (pfunc : JLong)
    (red green blue alpha : JFloat) (s : S) : Outcome S Unit :=
  let r := (gl.funcAt pfunc).blendColor red green blue alpha s
  ⟨[.extCall pfunc [.float red, .float green, .float blue, .float alpha]],
   r.1, jniCatch r.2⟩

/-- Binding `Java_edu_mines_jves_opengl_Gl_nglBlendEquation` (Gl.cpp 2319-2324):
`(*(PFNGLBLENDEQUATIONPROC)toPointer(pfunc))(mode);`. -/
def Gl_nglBlendEquation {S : Type} (gl : NativeGL S) (pfunc : JLong) (mode : JInt)
    (s : S) : Outcome S Unit :=
  let r := (gl.funcAt pfunc).blendEquation mode s
  ⟨[.extCall pfunc [.int mode]], r.1, jniCatch r.2⟩

/-- Binding `Java_edu_mines_jves_opengl_Gl_nglDrawRangeElements__IIIII_3B`
(Gl.cpp 2326-2332): `JvoidArray indices(env,jindices);
(*(PFNGLDRAWRANGEELEMENTSPROC)toPointer(pfunc))(mode,start,end,count,type,indices);`. -/
def Gl_nglDrawRangeElements__IIIII_3B {S : Type} (gl : NativeGL S) (pfunc : JLong)
    (mode start end_ count type : JInt) (jindices : List Int) (s : S) : Outcome S Unit :=
  let indices := JvoidArray jindices
  let r := (gl.funcAt pfunc).drawRangeElements mode start end_ count type indices s
  ⟨[.extCall pfunc [.int mode, .int start, .int end_, .int count, .int type,
      .voidPtr indices]], r.1, jniCatch r.2⟩

/-- Binding for the `int[]` overload of `nglDrawRangeElements` (Gl.cpp 2334-2340):
same body as the `byte[]` overload. -/
def Gl_nglDrawRangeElements__IIIII_3I {S : Type} (gl : NativeGL S) (pfunc : JLong)
    (mode start end_ count type : JInt) (jindices : List Int) (s : S) : Outcome S Unit :=
  let indices := JvoidArray jindices
  let r := (gl.funcAt pfunc).drawRangeElements mode start end_ count type indices s
  ⟨[.extCall pfunc [.int mode, .int start, .int end_, .int count, .int type,
      .voidPtr indices]], r.1, jniCatch r.2⟩

/-- Binding for the `short[]` overload of `nglDrawRangeElements` (Gl.cpp 2342-2348):
same body as the `byte[]` overload. -/
def Gl_nglDrawRangeElements__IIIII_3S {S : Type} (gl : NativeGL S) (pfunc : JLong)
    (mode start end_ count type : JInt) (jindices : List Int) (s : S) : Outcome S Unit :=
  let indices := JvoidArray jindices
  let r := (gl.funcAt pfunc).drawRangeElements mode start end_ count type indices s
  ⟨[.extCall pfunc [.int mode, .int start, .int end_, .int count, .int type,
      .voidPtr indices]], r.1, jniCatch r.2⟩

/-- The value an entry point returns to the managed caller, in JNI
representation. -/
inductive RetVal
  | unit
  | jint (i : JInt)
  | jboolean (b : Bool)
  | jstring (s : Option JavaString)
deriving Repr, DecidableEq

/-- The value a native function returns, in native representation. -/
inductive NativeRet
  | unit
  | glint (i : JInt)
  | glbool (b : GLboolean)
  | glstr (p : Option String)
deriving Repr, DecidableEq

/-- The fixed representation mapping from a native return value to the
caller's value: integer and enum returns pass through unchanged, a
`GLboolean` maps to the caller's boolean by comparison with `GL_TRUE`, and
a native string pointer is copied into a new caller-owned string. -/
def retMap : NativeRet → RetVal
  | .unit => .unit
  | .glint i => .jint i
  | .glbool b => .jboolean (b == GL_TRUE)
  | .glstr p => .jstring (newStringUTF p)

/-- One invocation of an embedded exported entry point, together with its
managed-level arguments. -/
inductive EntryPoint
  | glAccum (op : JInt) (value : JFloat)
  | glClear (mask : JInt)
  | glClearColor (red green blue alpha : JFloat)
  | glFrustum (left right bottom top zNear zFar : JDouble)
  | glBitmap (width height : JInt) (xorig yorig xmove ymove : JFloat) (jbitmap : List Int)
  | glLoadIdentity
  | glColorMask (red green blue alpha : JByte)
  | glDepthMask (flag : JByte)
  | glEdgeFlag (flag : JByte)
  | glIsEnabled (cap : JInt)
  | glIsList (list : JInt)
  | glIsTexture (texture : JInt)
  | glAreTexturesResident (n : JInt) (jtextures jresidences : List Int)
  | glGenLists (range : JInt)
  | glGetError
  | glRenderMode (mode : JInt)
  | glGetString (name : JInt)
  | glGenTextures (n : JInt) (jtextures : List Int)
  | glDeleteTextures (n : JInt) (jtextures : List Int)
  | glPrioritizeTextures (n : JInt) (jtextures : List Int) (jpriorities : List JFloat)
  | glPixelMapusv (map mapsize : JInt) (jvalues : List Int)
  | glDrawPixels__IIII_3B (width height format type : JInt) (jpixels : List Int)
  | glDrawPixels__IIII_3I (width height format type : JInt) (jpixels : List Int)
  | glDrawPixels__IIII_3S (width height format type : JInt) (jpixels : List Int)
  | glReadPixels__IIIIII_3B (x y width height format type : JInt) (jpixels : List Int)
  | glReadPixels__IIIIII_3I (x y width height format type : JInt) (jpixels : List Int)
  | glReadPixels__IIIIII_3S (x y width height format type : JInt) (jpixels : List Int)
  | nglBlendColor (pfunc : JLong) (red green blue alpha : JFloat)
  | nglBlendEquation (pfunc : JLong) (mode : JInt)
  | nglDrawRangeElements__IIIII_3B (pfunc : JLong) (mode start end_ count type : JInt)
      (jindices : List Int)
  | nglDrawRangeElements__IIIII_3I (pfunc : JLong) (mode start end_ count type : JInt)
      (jindices : List Int)
  | nglDrawRangeElements__IIIII_3S (pfunc : JLong) (mode start end_ count type : JInt)
      (jindices : List Int)

/-- The single native invocation an entry point performs, determined by the
entry point and its arguments alone (each C body contains exactly one
native call, whose arguments are the entry point's arguments after
marshaling). -/
def eventOf : EntryPoint → NativeEvent
  | .glAccum op value => .call "glAccum" [.int op, .float value]
  | .glClear mask => .call "glClear" [.int mask]
  | .glClearColor red green blue alpha =>
      .call "glClearColor" [.float red, .float green, .float blue, .float alpha]
  | .glFrustum left right bottom top zNear zFar =>
      .call "glFrustum" [.double left, .double right, .double bottom, .double top,
        .double zNear, .double zFar]
  | .glBitmap width height xorig yorig xmove ymove jbitmap =>
      .call "glBitmap" [.int width, .int height, .float xorig, .float yorig,
        .float xmove, .float ymove, .ubytePtr (JubyteArray jbitmap)]
  | .glLoadIdentity => .call "glLoadIdentity" []
  | .glColorMask red green blue alpha =>
      .call "glColorMask" [.glbool (byteToGLboolean red), .glbool (byteToGLboolean green),
        .glbool (byteToGLboolean blue), .glbool (byteToGLboolean alpha)]
  | .glDepthMask flag => .call "glDepthMask" [.glbool (byteToGLboolean flag)]
  | .glEdgeFlag flag => .call "glEdgeFlag" [.glbool (byteToGLboolean flag)]
  | .glIsEnabled cap => .call "glIsEnabled" [.int cap]
  | .glIsList list => .call "glIsList" [.int list]
  | .glIsTexture texture => .call "glIsTexture" [.int texture]
  | .glAreTexturesResident n jtextures jresidences =>
      .call "glAreTexturesResident" [.int n, .uintPtr (JuintArray jtextures),
        .ubytePtr (JubyteArray jresidences)]
  | .glGenLists range => .call "glGenLists" [.int range]
  | .glGetError => .call "glGetError" []
  | .glRenderMode mode => .call "glRenderMode" [.int mode]
  | .glGetString name => .call "glGetString" [.int name]
  | .glGenTextures n jtextures =>
      .call "glGenTextures" [.int n, .uintPtr (JuintArray jtextures)]
  | .glDeleteTextures n jtextures =>
      .call "glDeleteTextures" [.int n, .uintPtr (JuintArray jtextures)]
  | .glPrioritizeTextures n jtextures jpriorities =>
      .call "glPrioritizeTextures" [.int n, .uintPtr (JuintArray jtextures),
        .floatPtr (JfloatArray jpriorities)]
  | .glPixelMapusv map mapsize jvalues =>
      .call "glPixelMapusv" [.int map, .int mapsize, .ushortPtr (JushortArray jvalues)]
  | .glDrawPixels__IIII_3B width height format type jpixels =>
      .call "glDrawPixels" [.int width, .int height, .int format, .int type,
        .voidPtr (JvoidArray jpixels)]
  | .glDrawPixels__IIII_3I width height format type jpixels =>
      .call "glDrawPixels" [.int width, .int height, .int format, .int type,
        .voidPtr (JvoidArray jpixels)]
  | .glDrawPixels__IIII_3S width height format type jpixels =>
      .call "glDrawPixels" [.int width, .int height, .int format, .int type,
        .voidPtr (JvoidArray jpixels)]
  | .glReadPixels__IIIIII_3B x y width height format type jpixels =>
      .call "glReadPixels" [.int x, .int y, .int width, .int height, .int format,
        .int type, .voidPtr (JvoidArray jpixels)]
  | .glReadPixels__IIIIII_3I x y width height format type jpixels =>
      .call "glReadPixels" [.int x, .int y, .int width, .int height, .int format,
        .int type, .voidPtr (JvoidArray jpixels)]
  | .glReadPixels__IIIIII_3S x y width height format type jpixels =>
      .call "glReadPixels" [.int x, .int y, .int width, .int height, .int format,
        .int type, .voidPtr (JvoidArray jpixels)]
  | .nglBlendColor pfunc red green blue alpha =>
      .extCall pfunc [.float red, .float green, .float blue, .float alpha]
  | .nglBlendEquation pfunc mode => .extCall pfunc [.int mode]
  | .nglDrawRangeElements__IIIII_3B pfunc mode start end_ count type jindices =>
      .extCall pfunc [.int mode, .int start, .int end_, .int count, .int type,
        .voidPtr (JvoidArray jindices)]
  | .nglDrawRangeElements__IIIII_3I pfunc mode start end_ count type jindices =>
      .extCall pfunc [.int mode, .int start, .int end_, .int count, .int type,
        .voidPtr (JvoidArray jindices)]
  | .nglDrawRangeElements__IIIII_3S pfunc mode start end_ count type jindices =>
      .extCall pfunc [.int mode, .int start, .int end_, .int count, .int type,
        .voidPtr (JvoidArray jindices)]

/-- Uniform dispatcher: run one embedded exported entry point, injecting
its typed return value into `RetVal`. -/
def runEntry {S : Type} (gl : NativeGL S) : EntryPoint → S → Outcome S RetVal
  | .glAccum op value, s => (Gl_glAccum gl op value s).mapRet (fun _ => .unit)
  | .glClear mask, s => (Gl_glClear gl mask s).mapRet (fun _ => .unit)
  | .glClearColor red green blue alpha, s =>
      (Gl_glClearColor gl red green blue alpha s).mapRet (fun _ => .unit)
  | .glFrustum left right bottom top zNear zFar, s =>
      (Gl_glFrustum gl left right bottom top zNear zFar s).mapRet (fun _ => .unit)
  | .glBitmap width height xorig yorig xmove ymove jbitmap, s =>
      (Gl_glBitmap gl width height xorig yorig xmove ymove jbitmap s).mapRet (fun _ => .unit)
  | .glLoadIdentity, s => (Gl_glLoadIdentity gl s).mapRet (fun _ => .unit)
  | .glColorMask red green blue alpha, s =>
      (Gl_glColorMask gl red green blue alpha s).mapRet (fun _ => .unit)
  | .glDepthMask flag, s => (Gl_glDepthMask gl flag s).mapRet (fun _ => .unit)
  | .glEdgeFlag flag, s => (Gl_glEdgeFlag gl flag s).mapRet (fun _ => .unit)
  | .glIsEnabled cap, s => (Gl_glIsEnabled gl cap s).mapRet .jboolean
  | .glIsList list, s => (Gl_glIsList gl list s).mapRet .jboolean
  | .glIsTexture texture, s => (Gl_glIsTexture gl texture s).mapRet .jboolean
  | .glAreTexturesResident n jtextures jresidences, s =>
      (Gl_glAreTexturesResident gl n jtextures jresidences s).mapRet .jboolean
  | .glGenLists range, s => (Gl_glGenLists gl range s).mapRet .jint
  | .glGetError, s => (Gl_glGetError gl s).mapRet .jint
  | .glRenderMode mode, s => (Gl_glRenderMode gl mode s).mapRet .jint
  | .glGetString name, s => (Gl_glGetString gl name s).mapRet .jstring
  | .glGenTextures n jtextures, s => (Gl_glGenTextures gl n jtextures s).mapRet (fun _ => .unit)
  | .glDeleteTextures n jtextures, s =>
      (Gl_glDeleteTextures gl n jtextures s).mapRet (fun _ => .unit)
  | .glPrioritizeTextures n jtextures jpriorities, s =>
      (Gl_glPrioritizeTextures gl n jtextures jpriorities s).mapRet (fun _ => .unit)
  | .glPixelMapusv map mapsize jvalues, s =>
      (Gl_glPixelMapusv gl map mapsize jvalues s).mapRet (fun _ => .unit)
  | .glDrawPixels__IIII_3B width height format type jpixels, s =>
      (Gl_glDrawPixels__IIII_3B gl width height format type jpixels s).mapRet (fun _ => .unit)
  | .glDrawPixels__IIII_3I width height format type jpixels, s =>
      (Gl_glDrawPixels__IIII_3I gl width height format type jpixels s).mapRet (fun _ => .unit)
  | .glDrawPixels__IIII_3S width height format type jpixels, s =>
      (Gl_glDrawPixels__IIII_3S gl width height format type jpixels s).mapRet (fun _ => .unit)
  | .glReadPixels__IIIIII_3B x y width height format type jpixels, s =>
      (Gl_glReadPixels__IIIIII_3B gl x y width height format type jpixels s).mapRet
        (fun _ => .unit)
  | .glReadPixels__IIIIII_3I x y width height format type jpixels, s =>
      (Gl_glReadPixels__IIIIII_3I gl x y width height format type jpixels s).mapRet
        (fun _ => .unit)
  | .glReadPixels__IIIIII_3S x y width height format type jpixels, s =>
      (Gl_glReadPixels__IIIIII_3S gl x y width height format type jpixels s).mapRet
        (fun _ => .unit)
  | .nglBlendColor pfunc red green blue alpha, s =>
      (Gl_nglBlendColor gl pfunc red green blue alpha s).mapRet (fun _ => .unit)
  | .nglBlendEquation pfunc mode, s =>
      (Gl_nglBlendEquation gl pfunc mode s).mapRet (fun _ => .unit)
  | .nglDrawRangeElements__IIIII_3B pfunc mode start end_ count type jindices, s =>
      (Gl_nglDrawRangeElements__IIIII_3B gl pfunc mode start end_ count type jindices s).mapRet
        (fun _ => .unit)
  | .nglDrawRangeElements__IIIII_3I pfunc mode start end_ count type jindices, s =>
      (Gl_nglDrawRangeElements__IIIII_3I gl pfunc mode start end_ count type jindices s).mapRet
        (fun _ => .unit)
  | .nglDrawRangeElements__IIIII_3S pfunc mode start end_ count type jindices, s =>
      (Gl_nglDrawRangeElements__IIIII_3S gl pfunc mode start end_ count type jindices s).mapRet
        (fun _ => .unit)

/-- Spec-side definition for the refinement claim, following the spec's
words: the effect of "calling the underlying native function directly with
the same arguments" — the native function named by the entry point,
applied to the entry point's arguments (after marshaling, i.e. the same
raw views a direct native caller would pass), with no wrapper around it.
Returns the native state transformation and the raw native result. -/
def callNativeDirectly {S : Type} (gl : NativeGL S) :
    EntryPoint → S → S × Except NativeFault NativeRet
  | .glAccum op value, s =>
      let r := gl.glAccum op value s; (r.1, r.2.map (fun _ => .unit))
  | .glClear mask, s => let r := gl.glClear mask s; (r.1, r.2.map (fun _ => .unit))
  | .glClearColor red green blue alpha, s =>
      let r := gl.glClearColor red green blue alpha s; (r.1, r.2.map (fun _ => .unit))
  | .glFrustum left right bottom top zNear zFar, s =>
      let r := gl.glFrustum left right bottom top zNear zFar s
      (r.1, r.2.map (fun _ => .unit))
  | .glBitmap width height xorig yorig xmove ymove jbitmap, s =>
      let r := gl.glBitmap width height xorig yorig xmove ymove (JubyteArray jbitmap) s
      (r.1, r.2.map (fun _ => .unit))
  | .glLoadIdentity, s => let r := gl.glLoadIdentity s; (r.1, r.2.map (fun _ => .unit))
  | .glColorMask red green blue alpha, s =>
      let r := gl.glColorMask (byteToGLboolean red) (byteToGLboolean green)
        (byteToGLboolean blue) (byteToGLboolean alpha) s
      (r.1, r.2.map (fun _ => .unit))
  | .glDepthMask flag, s =>
      let r := gl.glDepthMask (byteToGLboolean flag) s; (r.1, r.2.map (fun _ => .unit))
  | .glEdgeFlag flag, s =>
      let r := gl.glEdgeFlag (byteToGLboolean flag) s; (r.1, r.2.map (fun _ => .unit))
  | .glIsEnabled cap, s => let r := gl.glIsEnabled cap s; (r.1, r.2.map .glbool)
  | .glIsList list, s => let r := gl.glIsList list s; (r.1, r.2.map .glbool)
  | .glIsTexture texture, s => let r := gl.glIsTexture texture s; (r.1, r.2.map .glbool)
  | .glAreTexturesResident n jtextures jresidences, s =>
      let r := gl.glAreTexturesResident n (JuintArray jtextures) (JubyteArray jresidences) s
      (r.1, r.2.map .glbool)
  | .glGenLists range, s => let r := gl.glGenLists range s; (r.1, r.2.map .glint)
  | .glGetError, s => let r := gl.glGetError s; (r.1, r.2.map .glint)
  | .glRenderMode mode, s => let r := gl.glRenderMode mode s; (r.1, r.2.map .glint)
  | .glGetString name, s => let r := gl.glGetString name s; (r.1, r.2.map .glstr)
  | .glGenTextures n jtextures, s =>
      let r := gl.glGenTextures n (JuintArray jtextures) s; (r.1, r.2.map (fun _ => .unit))
  | .glDeleteTextures n jtextures, s =>
      let r := gl.glDeleteTextures n (JuintArray jtextures) s; (r.1, r.2.map (fun _ => .unit))
  | .glPrioritizeTextures n jtextures jpriorities, s =>
      let r := gl.glPrioritizeTextures n (JuintArray jtextures) (JfloatArray jpriorities) s
      (r.1, r.2.map (fun _ => .unit))
  | .glPixelMapusv map mapsize jvalues, s =>
      let r := gl.glPixelMapusv map mapsize (JushortArray jvalues) s
      (r.1, r.2.map (fun _ => .unit))
  | .glDrawPixels__IIII_3B width height format type jpixels, s =>
      let r := gl.glDrawPixels width height format type (JvoidArray jpixels) s
      (r.1, r.2.map (fun _ => .unit))
  | .glDrawPixels__IIII_3I width height format type jpixels, s =>
      let r := gl.glDrawPixels width height format type (JvoidArray jpixels) s
      (r.1, r.2.map (fun _ => .unit))
  | .glDrawPixels__IIII_3S width height format type jpixels, s =>
      let r := gl.glDrawPixels width height format type (JvoidArray jpixels) s
      (r.1, r.2.map (fun _ => .unit))
  | .glReadPixels__IIIIII_3B x y width height format type jpixels, s =>
      let r := gl.glReadPixels x y width height format type (JvoidArray jpixels) s
      (r.1, r.2.map (fun _ => .unit))
  | .glReadPixels__IIIIII_3I x y width height format type jpixels, s =>
      let r := gl.glReadPixels x y width height format type (JvoidArray jpixels) s
      (r.1, r.2.map (fun _ => .unit))
  | .glReadPixels__IIIIII_3S x y width height format type jpixels, s =>
      let r := gl.glReadPixels x y width height format type (JvoidArray jpixels) s
      (r.1, r.2.map (fun _ => .unit))
  | .nglBlendColor pfunc red green blue alpha, s =>
      let r := (gl.funcAt pfunc).blendColor red green blue alpha s
      (r.1, r.2.map (fun _ => .unit))
  | .nglBlendEquation pfunc mode, s =>
      let r := (gl.funcAt pfunc).blendEquation mode s; (r.1, r.2.map (fun _ => .unit))
  | .nglDrawRangeElements__IIIII_3B pfunc mode start end_ count type jindices, s =>
      let r := (gl.funcAt pfunc).drawRangeElements mode start end_ count type
        (JvoidArray jindices) s
      (r.1, r.2.map (fun _ => .unit))
  | .nglDrawRangeElements__IIIII_3I pfunc mode start end_ count type jindices, s =>
      let r := (gl.funcAt pfunc).drawRangeElements mode start end_ count type
        (JvoidArray jindices) s
      (r.1, r.2.map (fun _ => .unit))
  | .nglDrawRangeElements__IIIII_3S pfunc mode start end_ count type jindices, s =>
      let r := (gl.funcAt pfunc).drawRangeElements mode start end_ count type
        (JvoidArray jindices) s
      (r.1, r.2.map (fun _ => .unit))

/-- Run a sequence of entry-point calls, threading only the native state:
the binding layer itself carries nothing from one call to the next. -/
def runSeq {S : Type} (gl : NativeGL S) : List EntryPoint → S → S
  | [], s => s
  | ep :: eps, s => runSeq gl eps (runEntry gl ep s).state

/-- Name test used for grouping overloads: whether the character sequence
of `p` begins the character sequence of `nm`. -/
def beginsWith (p nm : String) : Bool :=
  p.data.isPrefixOf nm.data

/-- Whether a character sequence contains two consecutive underscores. -/
def containsSep : List Char → Bool
  | [] => false
  | [_] => false
  | a :: b :: rest => (a == '_' && b == '_') || containsSep (b :: rest)

/-- Whether an exported name carries a `__`-separated JNI type-descriptor
suffix, i.e. belongs to an element-type-overloaded family. -/
def hasTypeSuffix (nm : String) : Bool :=
  containsSep nm.data

/-- The 346 exported entry-point name tokens of Gl.cpp, in source order:
for `JNI_GL_DECLARE0/1` and `JNI_GL_DECLARE_RETURN0/1` the token `name`
of `Java_edu_mines_jves_opengl_Gl_<name>`, and for `JNI_GL_DECLARE2` the
token `n<name>` (the macro prepends `n`). -/
def exportedGlNames : List String := [
  "glAccum", "glAlphaFunc", "glAreTexturesResident", "glArrayElement",
  "glBegin", "glBindTexture", "glBitmap", "glBlendFunc",
  "glCallList", "glCallLists__II_3B", "glCallLists__II_3I", "glCallLists__II_3S",
  "glClear", "glClearAccum", "glClearColor", "glClearDepth",
  "glClearIndex", "glClearStencil", "glClipPlane", "glColor3b",
  "glColor3bv", "glColor3d", "glColor3dv", "glColor3f",
  "glColor3fv", "glColor3i", "glColor3iv", "glColor3s",
  "glColor3sv", "glColor4b", "glColor4bv", "glColor4d",
  "glColor4dv", "glColor4f", "glColor4fv", "glColor4i",
  "glColor4iv", "glColor4s", "glColor4sv", "glColorMask",
  "glColorMaterial", "glColorPointer", "glCopyPixels", "glCopyTexImage1D",
  "glCopyTexImage2D", "glCopyTexSubImage1D", "glCopyTexSubImage2D", "glCullFace",
  "glDeleteLists", "glDeleteTextures", "glDepthFunc", "glDepthMask",
  "glDepthRange", "glDisable", "glDisableClientState", "glDrawArrays",
  "glDrawBuffer", "glDrawElements__III_3B", "glDrawElements__III_3I", "glDrawElements__III_3S",
  "glDrawPixels__IIII_3B", "glDrawPixels__IIII_3I", "glDrawPixels__IIII_3S", "glEdgeFlag",
  "glEdgeFlagPointer", "glEdgeFlagv", "glEnable", "glEnableClientState",
  "glEnd", "glEndList", "glEvalCoord1d", "glEvalCoord1dv",
  "glEvalCoord1f", "glEvalCoord1fv", "glEvalCoord2d", "glEvalCoord2dv",
  "glEvalCoord2f", "glEvalCoord2fv", "glEvalMesh1", "glEvalMesh2",
  "glEvalPoint1", "glEvalPoint2", "glFeedbackBuffer", "glFinish",
  "glFlush", "glFogf", "glFogfv", "glFogi",
  "glFogiv", "glFrontFace", "glFrustum", "glGenLists",
  "glGenTextures", "glGetBooleanv", "glGetClipPlane", "glGetDoublev",
  "glGetError", "glGetFloatv", "glGetIntegerv", "glGetLightfv",
  "glGetLightiv", "glGetMapdv", "glGetMapfv", "glGetMapiv",
  "glGetMaterialfv", "glGetMaterialiv", "glGetPixelMapfv", "glGetPixelMapuiv",
  "glGetPixelMapusv", "glGetPolygonStipple", "glGetString", "glGetTexEnvfv",
  "glGetTexEnviv", "glGetTexGendv", "glGetTexGenfv", "glGetTexGeniv",
  "glGetTexImage__IIII_3B", "glGetTexImage__IIII_3I", "glGetTexImage__IIII_3S", "glGetTexLevelParameterfv",
  "glGetTexLevelParameteriv", "glGetTexParameterfv", "glGetTexParameteriv", "glHint",
  "glIndexMask", "glIndexPointer", "glIndexd", "glIndexdv",
  "glIndexf", "glIndexfv", "glIndexi", "glIndexiv",
  "glIndexs", "glIndexsv", "glIndexub", "glIndexubv",
  "glInitNames", "glInterleavedArrays", "glIsEnabled", "glIsList",
  "glIsTexture", "glLightModelf", "glLightModelfv", "glLightModeli",
  "glLightModeliv", "glLightf", "glLightfv", "glLighti",
  "glLightiv", "glLineStipple", "glLineWidth", "glListBase",
  "glLoadIdentity", "glLoadMatrixd", "glLoadMatrixf", "glLoadName",
  "glLogicOp", "glMap1d", "glMap1f", "glMap2d",
  "glMap2f", "glMapGrid1d", "glMapGrid1f", "glMapGrid2d",
  "glMapGrid2f", "glMaterialf", "glMaterialfv", "glMateriali",
  "glMaterialiv", "glMatrixMode", "glMultMatrixd", "glMultMatrixf",
  "glNewList", "glNormal3b", "glNormal3bv", "glNormal3d",
  "glNormal3dv", "glNormal3f", "glNormal3fv", "glNormal3i",
  "glNormal3iv", "glNormal3s", "glNormal3sv", "glNormalPointer",
  "glOrtho", "glPassThrough", "glPixelMapfv", "glPixelMapuiv",
  "glPixelMapusv", "glPixelStoref", "glPixelStorei", "glPixelTransferf",
  "glPixelTransferi", "glPixelZoom", "glPointSize", "glPolygonMode",
  "glPolygonOffset", "glPolygonStipple", "glPopAttrib", "glPopClientAttrib",
  "glPopMatrix", "glPopName", "glPrioritizeTextures", "glPushAttrib",
  "glPushClientAttrib", "glPushMatrix", "glPushName", "glRasterPos2d",
  "glRasterPos2dv", "glRasterPos2f", "glRasterPos2fv", "glRasterPos2i",
  "glRasterPos2iv", "glRasterPos2s", "glRasterPos2sv", "glRasterPos3d",
  "glRasterPos3dv", "glRasterPos3f", "glRasterPos3fv", "glRasterPos3i",
  "glRasterPos3iv", "glRasterPos3s", "glRasterPos3sv", "glRasterPos4d",
  "glRasterPos4dv", "glRasterPos4f", "glRasterPos4fv", "glRasterPos4i",
  "glRasterPos4iv", "glRasterPos4s", "glRasterPos4sv", "glReadBuffer",
  "glReadPixels__IIIIII_3B", "glReadPixels__IIIIII_3I", "glReadPixels__IIIIII_3S", "glRectd",
  "glRectdv", "glRectf", "glRectfv", "glRecti",
  "glRectiv", "glRects", "glRectsv", "glRenderMode",
  "glRotated", "glRotatef", "glScaled", "glScalef",
  "glScissor", "glSelectBuffer", "glShadeModel", "glStencilFunc",
  "glStencilMask", "glStencilOp", "glTexCoord1d", "glTexCoord1dv",
  "glTexCoord1f", "glTexCoord1fv", "glTexCoord1i", "glTexCoord1iv",
  "glTexCoord1s", "glTexCoord1sv", "glTexCoord2d", "glTexCoord2dv",
  "glTexCoord2f", "glTexCoord2fv", "glTexCoord2i", "glTexCoord2iv",
  "glTexCoord2s", "glTexCoord2sv", "glTexCoord3d", "glTexCoord3dv",
  "glTexCoord3f", "glTexCoord3fv", "glTexCoord3i", "glTexCoord3iv",
  "glTexCoord3s", "glTexCoord3sv", "glTexCoord4d", "glTexCoord4dv",
  "glTexCoord4f", "glTexCoord4fv", "glTexCoord4i", "glTexCoord4iv",
  "glTexCoord4s", "glTexCoord4sv", "glTexCoordPointer", "glTexEnvf",
  "glTexEnvfv", "glTexEnvi", "glTexEnviv", "glTexGend",
  "glTexGendv", "glTexGenf", "glTexGenfv", "glTexGeni",
  "glTexGeniv", "glTexImage1D__IIIIIII_3B", "glTexImage1D__IIIIIII_3I", "glTexImage1D__IIIIIII_3S",
  "glTexImage2D__IIIIIIII_3B", "glTexImage2D__IIIIIIII_3I", "glTexImage2D__IIIIIIII_3S", "glTexParameterf",
  "glTexParameterfv", "glTexParameteri", "glTexParameteriv", "glTexSubImage1D__IIIIII_3B",
  "glTexSubImage1D__IIIIII_3I", "glTexSubImage1D__IIIIII_3S", "glTexSubImage2D__IIIIIIII_3B", "glTexSubImage2D__IIIIIIII_3I",
  "glTexSubImage2D__IIIIIIII_3S", "glTranslated", "glTranslatef", "glVertex2d",
  "glVertex2dv", "glVertex2f", "glVertex2fv", "glVertex2i",
  "glVertex2iv", "glVertex2s", "glVertex2sv", "glVertex3d",
  "glVertex3dv", "glVertex3f", "glVertex3fv", "glVertex3i",
  "glVertex3iv", "glVertex3s", "glVertex3sv", "glVertex4d",
  "glVertex4dv", "glVertex4f", "glVertex4fv", "glVertex4i",
  "glVertex4iv", "glVertex4s", "glVertex4sv", "glVertexPointer",
  "glViewport", "nglBlendColor", "nglBlendEquation", "nglDrawRangeElements__IIIII_3B",
  "nglDrawRangeElements__IIIII_3I", "nglDrawRangeElements__IIIII_3S"]

/-- A concrete native-library instance over state `Nat`, used to exercise
the theorems on closed inputs: every call advances the state counter and
succeeds with fixed return values. -/
def demoSigs : ExtSigs Nat where
  blendColor := fun _ _ _ _ s => (s + 1, .ok ())
  blendEquation := fun _ s => (s + 1, .ok ())
  drawRangeElements := fun _ _ _ _ _ _ s => (s + 1, .ok ())

/-- Concrete direct-call semantics accompanying `demoSigs`. -/
def glDemo : NativeGL Nat where
  glAccum := fun _ _ s => (s + 1, .ok ())
  glClear := fun _ s => (s + 1, .ok ())
  glClearColor := fun _ _ _ _ s => (s + 1, .ok ())
  glFrustum := fun _ _ _ _ _ _ s => (s + 1, .ok ())
  glBitmap := fun _ _ _ _ _ _ _ s => (s + 1, .ok ())
  glLoadIdentity := fun s => (s + 1, .ok ())
  glColorMask := fun _ _ _ _ s => (s + 1, .ok ())
  glDepthMask := fun _ s => (s + 1, .ok ())
  glEdgeFlag := fun _ s => (s + 1, .ok ())
  glIsEnabled := fun _ s => (s, .ok GL_TRUE)
  glIsList := fun _ s => (s, .ok GL_FALSE)
  glIsTexture := fun _ s => (s, .ok GL_TRUE)
  glAreTexturesResident := fun _ _ _ s => (s, .ok GL_TRUE)
  glGenLists := fun range s => (s + 1, .ok range)
  glGetError := fun s => (s, .ok 0)
  glRenderMode := fun _ s => (s, .ok 7)
  glGetString := fun _ s => (s, .ok (some "1.2 Mesa"))
  glGenTextures := fun _ _ s => (s + 1, .ok ())
  glDeleteTextures := fun _ _ s => (s + 1, .ok ())
  glPrioritizeTextures := fun _ _ _ s => (s + 1, .ok ())
  glPixelMapusv := fun _ _ _ s => (s + 1, .ok ())
  glDrawPixels := fun _ _ _ _ _ s => (s + 1, .ok ())
  glReadPixels := fun _ _ _ _ _ _ _ s => (s + 1, .ok ())
  funcAt := fun _ => demoSigs

/-- A native instance whose `glAccum` raises a native fault and whose
`glGetString` returns a null pointer, exercising the fault and null
paths. -/
def glFaulty : NativeGL Nat :=
  { glDemo with
    glAccum := fun _ _ s => (s, .error ⟨"access violation"⟩),
    glGetString := fun _ s => (s, .ok none) }

theorem except_map_map {ε α β γ : Type} (f : α → β) (g : β → γ) (r : Except ε α) :
    Except.map g (Except.map f r) = Except.map (fun a => g (f a)) r := by
  cases r <;> rfl

theorem jniCatch_map {α β : Type} (f : α → β) (r : Except NativeFault α) :
    jniCatch (Except.map f r) = Except.map f (jniCatch r) := by
  cases r <;> rfl

theorem jniCatch_ok {α : Type} (r : Except NativeFault α) (a : α) (h : r = .ok a) :
    jniCatch r = .ok a := by
  subst h; rfl

theorem jniCatch_error {α : Type} (r : Except NativeFault α) (f : NativeFault)
    (h : r = .error f) : jniCatch r = .error (.runtimeException f.description) := by
  subst h; rfl

theorem jniCatch_error_inv {α : Type} (r : Except NativeFault α) (e : JavaFault)
    (h : jniCatch r = .error e) :
    ∃ f, r = .error f ∧ e = .runtimeException f.description := by
  cases r with
  | ok a => exact absurd h (by simp [jniCatch])
  | error f => exact ⟨f, rfl, by simpa [jniCatch] using h.symm⟩

/-- Master decomposition: every embedded entry point is exactly "record the
one native invocation, apply the direct native call, translate a native
fault through the barrier, and map the native return value through the
fixed representation mapping". -/
theorem runEntry_eq {S : Type} (gl : NativeGL S) (ep : EntryPoint) (s : S) :
    runEntry gl ep s =
      ⟨[eventOf ep], (callNativeDirectly gl ep s).1,
        Except.map retMap (jniCatch (callNativeDirectly gl ep s).2)⟩ := by
  cases ep <;>
    simp [runEntry, callNativeDirectly, eventOf, Outcome.mapRet, retMap,
      jniCatch_map, except_map_map,
      Gl_glAccum, Gl_glClear, Gl_glClearColor, Gl_glFrustum, Gl_glBitmap,
      Gl_glLoadIdentity, Gl_glColorMask, Gl_glDepthMask, Gl_glEdgeFlag,
      Gl_glIsEnabled, Gl_glIsList, Gl_glIsTexture, Gl_glAreTexturesResident,
      Gl_glGenLists, Gl_glGetError, Gl_glRenderMode, Gl_glGetString,
      Gl_glGenTextures, Gl_glDeleteTextures, Gl_glPrioritizeTextures,
      Gl_glPixelMapusv, Gl_glDrawPixels__IIII_3B, Gl_glDrawPixels__IIII_3I,
      Gl_glDrawPixels__IIII_3S, Gl_glReadPixels__IIIIII_3B,
      Gl_glReadPixels__IIIIII_3I, Gl_glReadPixels__IIIIII_3S,
      Gl_nglBlendColor, Gl_nglBlendEquation, Gl_nglDrawRangeElements__IIIII_3B,
      Gl_nglDrawRangeElements__IIIII_3I, Gl_nglDrawRangeElements__IIIII_3S]

theorem except_map_error_inv {ε α β : Type} (f : α → β) (r : Except ε α) (e : ε)
    (h : Except.map f r = .error e) : r = .error e := by
  cases r with
  | ok a => simp [Except.map] at h
  | error e2 => simpa [Except.map] using h

/-- C1: for every embedded exported entry point, invoking it with valid
arguments (a fault-free native call) is observably equivalent to invoking
the corresponding native function directly with the same arguments: the
native-state transformation is identical in all cases, and the returned
value is exactly the native return value under the fixed representation
mapping `retMap` — the wrapper adds no behaviour of its own. -/
theorem C1_wrapper_refines_native {S : Type} (gl : NativeGL S) (ep : EntryPoint) (s : S) :
    (runEntry gl ep s).state = (callNativeDirectly gl ep s).1 ∧
    ∀ v, (callNativeDirectly gl ep s).2 = .ok v →
      (runEntry gl ep s).ret = .ok (retMap v) := by
  refine ⟨by rw [runEntry_eq], ?_⟩
  intro v h
  rw [runEntry_eq]
  simp [jniCatch_ok _ _ h, Except.map]

/-- Witness for C1 at a concrete input: `glClear` with mask 16384 on the
demo native library. -/
theorem C1_wrapper_refines_native_witness :
    (runEntry glDemo (.glClear 16384) 0).state =
      (callNativeDirectly glDemo (.glClear 16384) 0).1 ∧
    (runEntry glDemo (.glClear 16384) 0).ret = .ok .unit :=
  ⟨(C1_wrapper_refines_native glDemo (.glClear 16384) 0).1,
   (C1_wrapper_refines_native glDemo (.glClear 16384) 0).2 .unit rfl⟩

/-- C2: for every embedded entry point the underlying native function is
invoked exactly once per call (so at most once: no retry), a native-level
fault is re-signaled as exactly one caller-visible runtime fault carrying
the fault's description, and every caller-visible fault arises from such a
native fault translated once at the call that raised it. -/
theorem C2_fault_translation {S : Type} (gl : NativeGL S) (ep : EntryPoint) (s : S) :
    (runEntry gl ep s).trace.length = 1 ∧
    (∀ f, (callNativeDirectly gl ep s).2 = .error f →
      (runEntry gl ep s).ret = .error (.runtimeException f.description)) ∧
    (∀ e, (runEntry gl ep s).ret = .error e →
      ∃ f, (callNativeDirectly gl ep s).2 = .error f ∧
        e = .runtimeException f.description) := by
  refine ⟨by rw [runEntry_eq]; rfl, ?_, ?_⟩
  · intro f h
    rw [runEntry_eq]
    simp [jniCatch_error _ _ h, Except.map]
  · intro e h
    rw [runEntry_eq] at h
    simp only at h
    have h2 := except_map_error_inv _ _ _ h
    exact jniCatch_error_inv _ _ h2

/-- Witness for C2 at a concrete input: `glAccum` on the faulting native
library translates the native fault into one runtime exception carrying
its description, with the native function invoked exactly once. -/
theorem C2_fault_translation_witness :
    (runEntry glFaulty (.glAccum 0 ⟨0⟩) 0).trace.length = 1 ∧
    (runEntry glFaulty (.glAccum 0 ⟨0⟩) 0).ret =
      .error (.runtimeException "access violation") :=
  ⟨(C2_fault_translation glFaulty (.glAccum 0 ⟨0⟩) 0).1,
   (C2_fault_translation glFaulty (.glAccum 0 ⟨0⟩) 0).2.1 ⟨"access violation"⟩ rfl⟩

/-- C3: the return mapping of the value-returning entry points.  Native
integer and enum returns (`glGenLists`, `glGetError`, `glRenderMode`) pass
through unchanged; native boolean returns (`glAreTexturesResident`,
`glIsEnabled`, `glIsList`, `glIsTexture`) yield the caller's `true` exactly
when the native call returns `GL_TRUE` and `false` otherwise; the native
string return of `glGetString` is copied into a new caller-owned string. -/
theorem C3_return_value_mapping {S : Type} (gl : NativeGL S) (s : S) :
    (∀ range i, (gl.glGenLists range s).2 = .ok i →
      (Gl_glGenLists gl range s).ret = .ok i) ∧
    (∀ i, (gl.glGetError s).2 = .ok i → (Gl_glGetError gl s).ret = .ok i) ∧
    (∀ mode i, (gl.glRenderMode mode s).2 = .ok i →
      (Gl_glRenderMode gl mode s).ret = .ok i) ∧
    (∀ cap b, (gl.glIsEnabled cap s).2 = .ok b →
      (Gl_glIsEnabled gl cap s).ret = .ok (b == GL_TRUE)) ∧
    (∀ list b, (gl.glIsList list s).2 = .ok b →
      (Gl_glIsList gl list s).ret = .ok (b == GL_TRUE)) ∧
    (∀ texture b, (gl.glIsTexture texture s).2 = .ok b →
      (Gl_glIsTexture gl texture s).ret = .ok (b == GL_TRUE)) ∧
    (∀ n jtextures jresidences b,
      (gl.glAreTexturesResident n (JuintArray jtextures) (JubyteArray jresidences) s).2
        = .ok b →
      (Gl_glAreTexturesResident gl n jtextures jresidences s).ret = .ok (b == GL_TRUE)) ∧
    (∀ name cs, (gl.glGetString name s).2 = .ok (some cs) →
      (Gl_glGetString gl name s).ret = .ok (some ⟨cs⟩)) := by
  refine ⟨?_, ?_, ?_, ?_, ?_, ?_, ?_, ?_⟩
  · intro range i h; simp [Gl_glGenLists, h, jniCatch]
  · intro i h; simp [Gl_glGetError, h, jniCatch]
  · intro mode i h; simp [Gl_glRenderMode, h, jniCatch]
  · intro cap b h; simp [Gl_glIsEnabled, h, Except.map, jniCatch]
  · intro list b h; simp [Gl_glIsList, h, Except.map, jniCatch]
  · intro texture b h; simp [Gl_glIsTexture, h, Except.map, jniCatch]
  · intro n jt jr b h; simp [Gl_glAreTexturesResident, h, Except.map, jniCatch]
  · intro name cs h; simp [Gl_glGetString, h, Except.map, jniCatch, newStringUTF]

/-- Witness for C3 on the demo native library: concrete returns for each
mapped entry point. -/
theorem C3_return_value_mapping_witness :
    (Gl_glGenLists glDemo 5 0).ret = .ok 5 ∧
    (Gl_glGetError glDemo 0).ret = .ok 0 ∧
    (Gl_glRenderMode glDemo 1 0).ret = .ok 7 ∧
    (Gl_glIsEnabled glDemo 2 0).ret = .ok true ∧
    (Gl_glIsList glDemo 3 0).ret = .ok false ∧
    (Gl_glIsTexture glDemo 4 0).ret = .ok true ∧
    (Gl_glAreTexturesResident glDemo 1 [1] [0] 0).ret = .ok true ∧
    (Gl_glGetString glDemo 7 0).ret = .ok (some ⟨"1.2 Mesa"⟩) :=
  ⟨(C3_return_value_mapping glDemo 0).1 5 5 rfl,
   (C3_return_value_mapping glDemo 0).2.1 0 rfl,
   (C3_return_value_mapping glDemo 0).2.2.1 1 7 rfl,
   (C3_return_value_mapping glDemo 0).2.2.2.1 2 GL_TRUE rfl,
   (C3_return_value_mapping glDemo 0).2.2.2.2.1 3 GL_FALSE rfl,
   (C3_return_value_mapping glDemo 0).2.2.2.2.2.1 4 GL_TRUE rfl,
   (C3_return_value_mapping glDemo 0).2.2.2.2.2.2.1 1 [1] [0] GL_TRUE rfl,
   (C3_return_value_mapping glDemo 0).2.2.2.2.2.2.2 7 "1.2 Mesa" rfl⟩

/-- C4: arguments of direct entry points are forwarded to the native
function positionally, in declared order, with no validation, range check
or value transformation (array parameters replaced by their marshaled raw
views): the cited `glFrustum` and `glBitmap` bindings are, for all
argument values, exactly "one native call on those arguments", and every
embedded entry point factors the same way. -/
theorem C4_no_validation_forwarding :
    (∀ (S : Type) (gl : NativeGL S) left right bottom top zNear zFar s,
      Gl_glFrustum gl left right bottom top zNear zFar s =
        ⟨[.call "glFrustum" [.double left, .double right, .double bottom, .double top,
            .double zNear, .double zFar]],
         (gl.glFrustum left right bottom top zNear zFar s).1,
         jniCatch (gl.glFrustum left right bottom top zNear zFar s).2⟩) ∧
    (∀ (S : Type) (gl : NativeGL S) width height xorig yorig xmove ymove jbitmap s,
      Gl_glBitmap gl width height xorig yorig xmove ymove jbitmap s =
        ⟨[.call "glBitmap" [.int width, .int height, .float xorig, .float yorig,
            .float xmove, .float ymove, .ubytePtr (JubyteArray jbitmap)]],
         (gl.glBitmap width height xorig yorig xmove ymove (JubyteArray jbitmap) s).1,
         jniCatch (gl.glBitmap width height xorig yorig xmove ymove (JubyteArray jbitmap) s).2⟩) ∧
    (∀ (S : Type) (gl : NativeGL S) (ep : EntryPoint) (s : S),
      runEntry gl ep s =
        ⟨[eventOf ep], (callNativeDirectly gl ep s).1,
         Except.map retMap (jniCatch (callNativeDirectly gl ep s).2)⟩) :=
  ⟨fun _ _ _ _ _ _ _ _ _ => rfl,
   fun _ _ _ _ _ _ _ _ _ _ => rfl,
   fun _ gl ep s => runEntry_eq gl ep s⟩

/-- C5: extension entry points take the resolved function address as their
first parameter, before the native function's own arguments; the binding
reinterprets the handle as a function pointer of the expected signature
and invokes it once, performing no resolution, caching or validation: its
behaviour depends only on what is located at the given address
(`funcAt pfunc`), for every handle value. -/
theorem C5_extension_handle_dispatch :
    (∀ (S : Type) (gl : NativeGL S) pfunc red green blue alpha s,
      Gl_nglBlendColor gl pfunc red green blue alpha s =
        ⟨[.extCall pfunc [.float red, .float green, .float blue, .float alpha]],
         ((gl.funcAt pfunc).blendColor red green blue alpha s).1,
         jniCatch ((gl.funcAt pfunc).blendColor red green blue alpha s).2⟩) ∧
    (∀ (S : Type) (gl : NativeGL S) pfunc mode s,
      Gl_nglBlendEquation gl pfunc mode s =
        ⟨[.extCall pfunc [.int mode]],
         ((gl.funcAt pfunc).blendEquation mode s).1,
         jniCatch ((gl.funcAt pfunc).blendEquation mode s).2⟩) ∧
    (∀ (S : Type) (gl : NativeGL S) pfunc mode start end_ count type jindices s,
      Gl_nglDrawRangeElements__IIIII_3B gl pfunc mode start end_ count type jindices s =
        ⟨[.extCall pfunc [.int mode, .int start, .int end_, .int count, .int type,
            .voidPtr (JvoidArray jindices)]],
         ((gl.funcAt pfunc).drawRangeElements mode start end_ count type
            (JvoidArray jindices) s).1,
         jniCatch ((gl.funcAt pfunc).drawRangeElements mode start end_ count type
            (JvoidArray jindices) s).2⟩) ∧
    (∀ (S : Type) (gl gl2 : NativeGL S) pfunc red green blue alpha s,
      gl.funcAt pfunc = gl2.funcAt pfunc →
      Gl_nglBlendColor gl pfunc red green blue alpha s =
        Gl_nglBlendColor gl2 pfunc red green blue alpha s) := by
  refine ⟨fun _ _ _ _ _ _ _ _ => rfl, fun _ _ _ _ _ => rfl,
    fun _ _ _ _ _ _ _ _ _ _ => rfl, ?_⟩
  intro S gl gl2 pfunc red green blue alpha s h
  simp [Gl_nglBlendColor, h]

/-- Witness for C5: the demo and faulting native libraries hold the same
code at address 42, so `nglBlendColor` behaves identically through
either. -/
theorem C5_extension_handle_dispatch_witness :
    Gl_nglBlendColor glDemo 42 ⟨0⟩ ⟨0⟩ ⟨0⟩ ⟨0⟩ 0 =
      Gl_nglBlendColor glFaulty 42 ⟨0⟩ ⟨0⟩ ⟨0⟩ ⟨0⟩ 0 :=
  C5_extension_handle_dispatch.2.2.2 Nat glDemo glFaulty 42 ⟨0⟩ ⟨0⟩ ⟨0⟩ ⟨0⟩ 0 rfl

set_option maxRecDepth 80000 in
set_option maxHeartbeats 1000000 in
/-- C6: each native function with multiple caller-visible overloads
differing only in array element type is exported once per element type
under a distinct type-descriptor suffix.  In the export table of Gl.cpp
the suffixed exports are exactly the ten element-type-overloaded families
— the pixel-transfer functions `glDrawPixels`, `glReadPixels`,
`glGetTexImage`, `glTexImage1D`, `glTexImage2D`, `glTexSubImage1D`,
`glTexSubImage2D`, together with `glCallLists`, `glDrawElements` and the
extension `nglDrawRangeElements` — and every one of these families has
exactly three distinctly named entry points, suffixed for byte, int and
short element arrays, and no others. -/
theorem C6_overload_suffix_naming :
    exportedGlNames.filter hasTypeSuffix =
      ["glCallLists__II_3B", "glCallLists__II_3I", "glCallLists__II_3S",
       "glDrawElements__III_3B", "glDrawElements__III_3I", "glDrawElements__III_3S",
       "glDrawPixels__IIII_3B", "glDrawPixels__IIII_3I", "glDrawPixels__IIII_3S",
       "glGetTexImage__IIII_3B", "glGetTexImage__IIII_3I", "glGetTexImage__IIII_3S",
       "glReadPixels__IIIIII_3B", "glReadPixels__IIIIII_3I", "glReadPixels__IIIIII_3S",
       "glTexImage1D__IIIIIII_3B", "glTexImage1D__IIIIIII_3I", "glTexImage1D__IIIIIII_3S",
       "glTexImage2D__IIIIIIII_3B", "glTexImage2D__IIIIIIII_3I", "glTexImage2D__IIIIIIII_3S",
       "glTexSubImage1D__IIIIII_3B", "glTexSubImage1D__IIIIII_3I", "glTexSubImage1D__IIIIII_3S",
       "glTexSubImage2D__IIIIIIII_3B", "glTexSubImage2D__IIIIIIII_3I",
       "glTexSubImage2D__IIIIIIII_3S",
       "nglDrawRangeElements__IIIII_3B", "nglDrawRangeElements__IIIII_3I",
       "nglDrawRangeElements__IIIII_3S"] ∧
    exportedGlNames.filter (beginsWith "glDrawPixels") =
      ["glDrawPixels__IIII_3B", "glDrawPixels__IIII_3I", "glDrawPixels__IIII_3S"] ∧
    exportedGlNames.filter (beginsWith "glReadPixels") =
      ["glReadPixels__IIIIII_3B", "glReadPixels__IIIIII_3I", "glReadPixels__IIIIII_3S"] ∧
    exportedGlNames.filter (beginsWith "glGetTexImage") =
      ["glGetTexImage__IIII_3B", "glGetTexImage__IIII_3I", "glGetTexImage__IIII_3S"] ∧
    exportedGlNames.filter (beginsWith "glTexImage1D") =
      ["glTexImage1D__IIIIIII_3B", "glTexImage1D__IIIIIII_3I", "glTexImage1D__IIIIIII_3S"] ∧
    exportedGlNames.filter (beginsWith "glTexImage2D") =
      ["glTexImage2D__IIIIIIII_3B", "glTexImage2D__IIIIIIII_3I",
       "glTexImage2D__IIIIIIII_3S"] ∧
    exportedGlNames.filter (beginsWith "glTexSubImage1D") =
      ["glTexSubImage1D__IIIIII_3B", "glTexSubImage1D__IIIIII_3I",
       "glTexSubImage1D__IIIIII_3S"] ∧
    exportedGlNames.filter (beginsWith "glTexSubImage2D") =
      ["glTexSubImage2D__IIIIIIII_3B", "glTexSubImage2D__IIIIIIII_3I",
       "glTexSubImage2D__IIIIIIII_3S"] ∧
    exportedGlNames.filter (beginsWith "glCallLists") =
      ["glCallLists__II_3B", "glCallLists__II_3I", "glCallLists__II_3S"] ∧
    exportedGlNames.filter (beginsWith "glDrawElements") =
      ["glDrawElements__III_3B", "glDrawElements__III_3I", "glDrawElements__III_3S"] ∧
    exportedGlNames.filter (beginsWith "nglDrawRangeElements") =
      ["nglDrawRangeElements__IIIII_3B", "nglDrawRangeElements__IIIII_3I",
       "nglDrawRangeElements__IIIII_3S"] ∧
    ("glDrawPixels__IIII_3B" ≠ "glDrawPixels__IIII_3I" ∧
     "glDrawPixels__IIII_3B" ≠ "glDrawPixels__IIII_3S" ∧
     "glDrawPixels__IIII_3I" ≠ "glDrawPixels__IIII_3S") ∧
    ("glReadPixels__IIIIII_3B" ≠ "glReadPixels__IIIIII_3I" ∧
     "glReadPixels__IIIIII_3B" ≠ "glReadPixels__IIIIII_3S" ∧
     "glReadPixels__IIIIII_3I" ≠ "glReadPixels__IIIIII_3S") := by
  decide

theorem reinterpretUnsigned_bits (w : Nat) (x : Int) :
    ((reinterpretUnsigned w x : Nat) : Int) % (2 : Int) ^ w = x % (2 : Int) ^ w ∧
    reinterpretUnsigned w x < 2 ^ w := by
  have hpos : (0 : Int) < (2 : Int) ^ w := by positivity
  have h0 : 0 ≤ x % (2 : Int) ^ w := Int.emod_nonneg x (ne_of_gt hpos)
  have h1 : x % (2 : Int) ^ w < (2 : Int) ^ w := Int.emod_lt_of_pos x hpos
  have hcast : ((2 ^ w : Nat) : Int) = (2 : Int) ^ w := by push_cast; ring
  constructor
  · unfold reinterpretUnsigned
    rw [Int.toNat_of_nonneg h0, Int.emod_emod_of_dvd x dvd_rfl]
  · unfold reinterpretUnsigned
    omega

/-- C7: entry points whose native signature requires an unsigned array
element type hand the native function the unsigned reinterpretation view
of the signed managed array (`JuintArray`, `JubyteArray`, `JushortArray`),
and that view is bit-preserving: each marshaled element is congruent to
the signed element modulo 2^width and fits the native width — it is not a
numeric conversion (for example the signed int -1 marshals to 2^32 - 1 and
the signed short -2 marshals to 65534). -/
theorem C7_signed_to_unsigned_marshaling :
    (∀ (S : Type) (gl : NativeGL S) n jtextures s,
      Gl_glGenTextures gl n jtextures s =
        ⟨[.call "glGenTextures" [.int n, .uintPtr (JuintArray jtextures)]],
         (gl.glGenTextures n (JuintArray jtextures) s).1,
         jniCatch (gl.glGenTextures n (JuintArray jtextures) s).2⟩) ∧
    (∀ (S : Type) (gl : NativeGL S) n jtextures s,
      Gl_glDeleteTextures gl n jtextures s =
        ⟨[.call "glDeleteTextures" [.int n, .uintPtr (JuintArray jtextures)]],
         (gl.glDeleteTextures n (JuintArray jtextures) s).1,
         jniCatch (gl.glDeleteTextures n (JuintArray jtextures) s).2⟩) ∧
    (∀ (S : Type) (gl : NativeGL S) n jtextures jpriorities s,
      Gl_glPrioritizeTextures gl n jtextures jpriorities s =
        ⟨[.call "glPrioritizeTextures" [.int n, .uintPtr (JuintArray jtextures),
            .floatPtr (JfloatArray jpriorities)]],
         (gl.glPrioritizeTextures n (JuintArray jtextures) (JfloatArray jpriorities) s).1,
         jniCatch (gl.glPrioritizeTextures n (JuintArray jtextures)
           (JfloatArray jpriorities) s).2⟩) ∧
    (∀ (S : Type) (gl : NativeGL S) n jtextures jresidences s,
      Gl_glAreTexturesResident gl n jtextures jresidences s =
        ⟨[.call "glAreTexturesResident" [.int n, .uintPtr (JuintArray jtextures),
            .ubytePtr (JubyteArray jresidences)]],
         (gl.glAreTexturesResident n (JuintArray jtextures) (JubyteArray jresidences) s).1,
         jniCatch ((gl.glAreTexturesResident n (JuintArray jtextures)
           (JubyteArray jresidences) s).2.map (fun b => b == GL_TRUE))⟩) ∧
    (∀ (S : Type) (gl : NativeGL S) map mapsize jvalues s,
      Gl_glPixelMapusv gl map mapsize jvalues s =
        ⟨[.call "glPixelMapusv" [.int map, .int mapsize, .ushortPtr (JushortArray jvalues)]],
         (gl.glPixelMapusv map mapsize (JushortArray jvalues) s).1,
         jniCatch (gl.glPixelMapusv map mapsize (JushortArray jvalues) s).2⟩) ∧
    (∀ (w : Nat) (x : Int),
      ((reinterpretUnsigned w x : Nat) : Int) % (2 : Int) ^ w = x % (2 : Int) ^ w ∧
      reinterpretUnsigned w x < 2 ^ w) ∧
    JuintArray [-1] = [2 ^ 32 - 1] ∧
    JushortArray [-2] = [65534] := by
  refine ⟨fun _ _ _ _ _ => rfl, fun _ _ _ _ _ => rfl, fun _ _ _ _ _ _ => rfl,
    fun _ _ _ _ _ _ => rfl, fun _ _ _ _ _ _ => rfl,
    reinterpretUnsigned_bits, by decide, by decide⟩

/-- C8: the binding layer keeps no state of its own across calls.  Running
a sequence of entry points threads nothing but the native state (sequencing
is plain function composition on `S`, so a call's outcome depends only on
its own arguments and the native state it receives), and each entry point
performs exactly the single native invocation determined by its own
arguments — it reads no binding-layer variable and calls no other entry
point. -/
theorem C8_no_binding_state {S : Type} (gl : NativeGL S) :
    (∀ eps1 eps2 s, runSeq gl (eps1 ++ eps2) s = runSeq gl eps2 (runSeq gl eps1 s)) ∧
    (∀ ep s, (runEntry gl ep s).trace = [eventOf ep]) := by
  constructor
  · intro eps1
    induction eps1 with
    | nil => intro eps2 s; rfl
    | cons ep eps ih => intro eps2 s; simp only [List.cons_append, runSeq]; exact ih eps2 _
  · intro ep s
    rw [runEntry_eq]

/-- C9: in `glGetString` the native pointer is passed to the managed
string constructor with no null check: the returned value is always
`newStringUTF` of the raw native result.  When the native call returns a
null pointer no string value is produced, and only under the precondition
that it returns a non-null string is a copied caller-owned string
returned. -/
theorem C9_getstring_null_unguarded {S : Type} (gl : NativeGL S) (name : JInt) (s : S) :
    (Gl_glGetString gl name s).ret =
      jniCatch ((gl.glGetString name s).2.map newStringUTF) ∧
    ((gl.glGetString name s).2 = .ok none → (Gl_glGetString gl name s).ret = .ok none) ∧
    (∀ cs, (gl.glGetString name s).2 = .ok (some cs) →
      (Gl_glGetString gl name s).ret = .ok (some ⟨cs⟩)) := by
  refine ⟨rfl, ?_, ?_⟩
  · intro h; simp [Gl_glGetString, h, Except.map, jniCatch, newStringUTF]
  · intro cs h; simp [Gl_glGetString, h, Except.map, jniCatch, newStringUTF]

/-- Witness for C9: a null native string yields no managed string on the
faulting library; a non-null native string yields its copy on the demo
library. -/
theorem C9_getstring_null_unguarded_witness :
    (Gl_glGetString glFaulty 7 0).ret = .ok none ∧
    (Gl_glGetString glDemo 7 0).ret = .ok (some ⟨"1.2 Mesa"⟩) :=
  ⟨(C9_getstring_null_unguarded glFaulty 7 0).2.1 rfl,
   (C9_getstring_null_unguarded glDemo 7 0).2.2 "1.2 Mesa" rfl⟩

/-- C10: `glColorMask`, `glDepthMask` and `glEdgeFlag` accept their
boolean-typed native parameters as managed bytes and forward them
numerically (the implicit signed-char to unsigned-char conversion, with no
normalization to a 0/1 sentinel — byte 2 is delivered as 2), so under the
native convention that any nonzero `GLboolean` is true, every nonzero byte
behaves as native true and zero as native false. -/
theorem C10_byte_booleans_not_normalized :
    (∀ (S : Type) (gl : NativeGL S) red green blue alpha s,
      Gl_glColorMask gl red green blue alpha s =
        ⟨[.call "glColorMask" [.glbool (byteToGLboolean red), .glbool (byteToGLboolean green),
            .glbool (byteToGLboolean blue), .glbool (byteToGLboolean alpha)]],
         (gl.glColorMask (byteToGLboolean red) (byteToGLboolean green)
           (byteToGLboolean blue) (byteToGLboolean alpha) s).1,
         jniCatch (gl.glColorMask (byteToGLboolean red) (byteToGLboolean green)
           (byteToGLboolean blue) (byteToGLboolean alpha) s).2⟩) ∧
    (∀ (S : Type) (gl : NativeGL S) flag s,
      Gl_glDepthMask gl flag s =
        ⟨[.call "glDepthMask" [.glbool (byteToGLboolean flag)]],
         (gl.glDepthMask (byteToGLboolean flag) s).1,
         jniCatch (gl.glDepthMask (byteToGLboolean flag) s).2⟩) ∧
    (∀ (S : Type) (gl : NativeGL S) flag s,
      Gl_glEdgeFlag gl flag s =
        ⟨[.call "glEdgeFlag" [.glbool (byteToGLboolean flag)]],
         (gl.glEdgeFlag (byteToGLboolean flag) s).1,
         jniCatch (gl.glEdgeFlag (byteToGLboolean flag) s).2⟩) ∧
    (∀ b : Int, -128 ≤ b → b < 128 →
      (glTruth (byteToGLboolean b) = true ↔ b ≠ 0)) ∧
    byteToGLboolean 2 = 2 ∧
    byteToGLboolean (-1) = 255 := by
  refine ⟨fun _ _ _ _ _ _ _ => rfl, fun _ _ _ _ => rfl, fun _ _ _ _ => rfl,
    ?_, by decide, by decide⟩
  intro b h1 h2
  have h256 : (2 : Int) ^ 8 = 256 := by norm_num
  simp only [glTruth, byteToGLboolean, reinterpretUnsigned, h256, bne_iff_ne, ne_eq,
    Int.toNat_eq_zero]
  omega

/-- Witness for C10: byte -5 is in the `jbyte` range and behaves as native
true. -/
theorem C10_byte_booleans_not_normalized_witness :
    glTruth (byteToGLboolean (-5)) = true :=
  (C10_byte_booleans_not_normalized.2.2.2.1 (-5) (by decide) (by decide)).mpr (by decide)

end Jtk
